import Mathlib

/-!
Shallow embedding of the Sui-related core of the x402 micropayment library
(TypeScript sources under packages/x402, packages/x402-next and the
facilitator site routes), together with proofs of its specified properties.

Bytes are modelled as `Nat` (each in 0..255 where produced by the decoder),
byte arrays as `List Nat`, JS exceptions as `Except`/`Option`, and the
asynchronous effect order of the route handlers as explicit event traces.
-/

namespace X402

/-! ### Base64 (model of fromBase64 from the Sui utils, which throws on invalid input)

The decoder follows the forgiving-base64 algorithm used by `atob`:
strip ASCII whitespace, strip up to two trailing padding characters when the
length is a multiple of four, reject any remaining character outside the
base64 alphabet and reject a remaining length congruent to 1 mod 4. -/

def isB64Whitespace (c : Char) : Bool :=
  c = ' ' ∨ c = '\t' ∨ c = '\n' ∨ c = '\r' ∨ c = Char.ofNat 12

def b64Value (c : Char) : Option Nat :=
  if 'A' ≤ c ∧ c ≤ 'Z' then some (c.toNat - 65)
  else if 'a' ≤ c ∧ c ≤ 'z' then some (c.toNat - 71)
  else if '0' ≤ c ∧ c ≤ '9' then some (c.toNat + 4)
  else if c = '+' then some 62
  else if c = '/' then some 63
  else none

/-- Convert a list of 6-bit groups to bytes; a final group of a single
sextet is invalid (length ≡ 1 mod 4), two sextets give one byte and three
sextets give two bytes. -/
def sextetsToBytes : List Nat → Option (List Nat)
  | [] => some []
  | [_] => none
  | [a, b] => some [(a * 4 + b / 16) % 256]
  | [a, b, c] => some [(a * 4 + b / 16) % 256, ((b % 16) * 16 + c / 4) % 256]
  | a :: b :: c :: d :: rest =>
    match sextetsToBytes rest with
    | none => none
    | some tail =>
      some ((a * 4 + b / 16) % 256 :: ((b % 16) * 16 + c / 4) % 256 ::
        ((c % 4) * 64 + d) % 256 :: tail)

def stripB64Padding (l : List Char) : List Char :=
  if l.length % 4 = 0 then
    match l.reverse with
    | '=' :: '=' :: rest => rest.reverse
    | '=' :: rest => rest.reverse
    | _ => l
  else l

def fromBase64Chars (l : List Char) : Option (List Nat) :=
  let trimmed := stripB64Padding (l.filter (fun c => ¬ isB64Whitespace c))
  match trimmed.mapM b64Value with
  | none => none
  | some sextets => sextetsToBytes sextets

def fromBase64 (s : String) : Option (List Nat) :=
  fromBase64Chars s.data

/-! ### ExactSuiPayload and signature verification (shared/sui/transaction.ts) -/

/-- Wire payload of the Sui exact scheme: base64 signature and base64
BCS-serialized transaction data. -/
structure ExactSuiPayload where
  signature : String
  txData : String

/-- The two cryptographic primitives used by verifyTransactionSignature,
supplied by the Sui SDK: address derivation from an Ed25519 public key and
Ed25519 signature verification over message bytes. Both are abstracted; the
proofs hold for every implementation. -/
structure SuiCrypto where
  toSuiAddress : List Nat → String
  verifyEd25519 : List Nat → List Nat → List Nat → Bool

/-- Model of verifyTransactionSignature: decode both base64 fields (a decode
failure is caught and yields false), reject a decoded signature shorter than
97 bytes, split it as [scheme flag (1 byte) | signature (64) | public key
(32)], reject a scheme flag other than Ed25519 (0x00), reject a derived
signer address different from the expected signer, then verify the
signature over the transaction bytes. -/
def verifyTransactionSignature (crypto : SuiCrypto) (payload : ExactSuiPayload)
    (expectedSigner : String) : Bool :=
  match fromBase64 payload.txData with
  | none => false
  | some transactionBytes =>
    match fromBase64 payload.signature with
    | none => false
    | some signatureBytes =>
      if signatureBytes.length < 97 then false
      else
        let schemeFlag := signatureBytes.headD 0
        let signature := (signatureBytes.drop 1).take 64
        let publicKeyBytes := (signatureBytes.drop 65).take 32
        if schemeFlag ≠ 0 then false
        else
          let signerAddress := crypto.toSuiAddress publicKeyBytes
          if signerAddress ≠ expectedSigner then false
          else crypto.verifyEd25519 publicKeyBytes transactionBytes signature

/-- Characterization of verifyTransactionSignature as a single expression,
shared by the proofs below. -/
theorem verifyTransactionSignature_spec (crypto : SuiCrypto) (payload : ExactSuiPayload)
    (expectedSigner : String) :
    verifyTransactionSignature crypto payload expectedSigner =
      match fromBase64 payload.txData, fromBase64 payload.signature with
      | some tx, some s =>
        if s.length < 97 then false
        else if s.headD 0 ≠ 0 then false
        else if crypto.toSuiAddress ((s.drop 65).take 32) ≠ expectedSigner then false
        else crypto.verifyEd25519 ((s.drop 65).take 32) tx ((s.drop 1).take 64)
      | _, _ => false := by
  unfold verifyTransactionSignature
  cases fromBase64 payload.txData <;> cases fromBase64 payload.signature <;> rfl

/-- On a payload whose two base64 fields decode, with a decoded signature of
at least 97 bytes, verification reduces to the flag, address and
cryptographic checks over the three fixed-width fields. -/
theorem verify_signature_decoded (crypto : SuiCrypto) (payload : ExactSuiPayload)
    (expectedSigner : String) (s tx : List Nat)
    (hs : fromBase64 payload.signature = some s)
    (htx : fromBase64 payload.txData = some tx)
    (hlen : 97 ≤ s.length) :
    verifyTransactionSignature crypto payload expectedSigner =
      (if s.headD 0 ≠ 0 then false
       else if crypto.toSuiAddress ((s.drop 65).take 32) ≠ expectedSigner then false
       else crypto.verifyEd25519 ((s.drop 65).take 32) tx ((s.drop 1).take 64)) := by
  rw [verifyTransactionSignature_spec, hs, htx]
  simp [Nat.not_lt.mpr hlen]

/-- C3: verifyTransactionSignature is total over arbitrary payloads and
expected signers (it is a Lean function into Bool, so it never throws), and
it returns false for an empty signature string, for a signature that is not
base64 (such as the literal "invalid_base64!!!", shown undecodable in the
last conjunct), for a decoded signature shorter than 97 bytes, for a scheme
flag other than 0x00, and for a derived signer address that differs from the
expected signer. -/
theorem verify_signature_total (crypto : SuiCrypto) (payload : ExactSuiPayload)
    (expectedSigner : String) :
    (payload.signature = "" →
      verifyTransactionSignature crypto payload expectedSigner = false) ∧
    (fromBase64 payload.signature = none →
      verifyTransactionSignature crypto payload expectedSigner = false) ∧
    (∀ s, fromBase64 payload.signature = some s → s.length < 97 →
      verifyTransactionSignature crypto payload expectedSigner = false) ∧
    (∀ s, fromBase64 payload.signature = some s → s.headD 0 ≠ 0 →
      verifyTransactionSignature crypto payload expectedSigner = false) ∧
    (∀ s, fromBase64 payload.signature = some s →
      crypto.toSuiAddress ((s.drop 65).take 32) ≠ expectedSigner →
      verifyTransactionSignature crypto payload expectedSigner = false) ∧
    fromBase64 "invalid_base64!!!" = none := by
  refine ⟨?_, ?_, ?_, ?_, ?_, by decide⟩
  · intro h
    rw [verifyTransactionSignature_spec, h]
    have h0 : fromBase64 "" = some [] := rfl
    rw [h0]
    cases fromBase64 payload.txData <;> simp
  · intro h
    rw [verifyTransactionSignature_spec, h]
    cases fromBase64 payload.txData <;> rfl
  · intro s hs hlen
    rw [verifyTransactionSignature_spec, hs]
    cases fromBase64 payload.txData
    · rfl
    · simp [hlen]
  · intro s hs hflag
    by_cases hlen : s.length < 97
    · rw [verifyTransactionSignature_spec, hs]
      cases fromBase64 payload.txData
      · rfl
      · simp [hlen]
    · cases htx : fromBase64 payload.txData with
      | none =>
        rw [verifyTransactionSignature_spec, htx]
      | some tx =>
        rw [verify_signature_decoded crypto payload expectedSigner s tx hs htx
          (Nat.not_lt.mp hlen), if_pos hflag]
  · intro s hs haddr
    by_cases hlen : s.length < 97
    · rw [verifyTransactionSignature_spec, hs]
      cases fromBase64 payload.txData
      · rfl
      · simp [hlen]
    · cases htx : fromBase64 payload.txData with
      | none =>
        rw [verifyTransactionSignature_spec, htx]
      | some tx =>
        rw [verify_signature_decoded crypto payload expectedSigner s tx hs htx
          (Nat.not_lt.mp hlen)]
        by_cases hflag : s.headD 0 ≠ 0
        · rw [if_pos hflag]
        · rw [if_neg hflag, if_pos haddr]

/-- Concrete witness for C3: the empty signature string yields false (using
a crypto oracle that accepts everything, so the early rejection is what
produces false). -/
theorem verify_signature_total_witness :
    verifyTransactionSignature
      ⟨fun _ => "0xmatch", fun _ _ _ => true⟩
      ⟨"", "AQID"⟩ "0xmatch" = false :=
  (verify_signature_total ⟨fun _ => "0xmatch", fun _ _ _ => true⟩
    ⟨"", "AQID"⟩ "0xmatch").1 rfl

/-- C4: for a payload whose base64 fields decode, with a decoded signature
of at least 97 bytes, verifyTransactionSignature parses byte 0 as the scheme
flag, bytes 1..64 as the 64-byte signature and bytes 65..96 as the 32-byte
public key, returns false when the flag is not the Ed25519 flag 0x00 or when
the address derived from the public key differs from the expected signer,
and otherwise returns the cryptographic verdict of the signature over the
decoded transaction bytes. -/
theorem verify_signature_parses_fields (crypto : SuiCrypto) (payload : ExactSuiPayload)
    (expectedSigner : String) (s tx : List Nat)
    (hs : fromBase64 payload.signature = some s)
    (htx : fromBase64 payload.txData = some tx)
    (hlen : 97 ≤ s.length) :
    verifyTransactionSignature crypto payload expectedSigner =
      (if s.headD 0 ≠ 0 then false
       else if crypto.toSuiAddress ((s.drop 65).take 32) ≠ expectedSigner then false
       else crypto.verifyEd25519 ((s.drop 65).take 32) tx ((s.drop 1).take 64)) :=
  verify_signature_decoded crypto payload expectedSigner s tx hs htx hlen

set_option maxRecDepth 10000 in
/-- Concrete witness for C4: a 97-byte all-zero decoded signature with an
accepting crypto oracle makes verification succeed, exercising the theorem
at the base64 encoding of 97 zero bytes. -/
theorem verify_signature_parses_fields_witness :
    verifyTransactionSignature
      ⟨fun _ => "0xmatch", fun _ _ _ => true⟩
      ⟨String.mk (List.replicate 130 'A' ++ ['=', '=']), "AQID"⟩ "0xmatch" = true := by
  have h := verify_signature_parses_fields
    ⟨fun _ => "0xmatch", fun _ _ _ => true⟩
    ⟨String.mk (List.replicate 130 'A' ++ ['=', '=']), "AQID"⟩ "0xmatch"
    (List.replicate 97 0) [1, 2, 3] (by decide) (by decide) (by decide)
  rw [h]
  decide

/-! ### Simulate/sign helpers (shared/sui/transaction.ts)

The RPC dry run and the signer are external effects; they are modelled by
their outcomes, and the order in which the helpers perform them is recorded
as an explicit event trace. -/

inductive SuiEvent
  | simulateCall
  | signCall
deriving DecidableEq

structure SignedTx where
  signature : String
  transactionBytes : String
deriving DecidableEq

/-- The signer argument of signTransactionWithSigner: a direct signer
exposing signTransaction, a keypair exposing signMessage or
signPersonalMessage together with signTransaction, or a value with neither
capability. An outcome of none models a signing call that throws. -/
inductive SignerModel
  | direct (outcome : Option SignedTx)
  | keypair (outcome : Option SignedTx)
  | unsupported

/-- Model of simulateTransaction: build the transaction and dry-run it
against the RPC client (outcome dryRun, none when the underlying call
throws); a failure is caught and rethrown as transaction_simulation_failed.
The trace records that the simulation effect ran. -/
def simulateTransaction {α : Type} (dryRun : Option α) :
    Except String α × List SuiEvent :=
  (match dryRun with
   | some r => Except.ok r
   | none => Except.error "transaction_simulation_failed",
   [SuiEvent.simulateCall])

/-- Model of signTransactionWithSigner: invoke whichever signing capability
the signer exposes (recording the signer invocation in the trace); a signer
with neither capability throws without being invoked, and every failure is
mapped to failed_to_sign_transaction. -/
def signTransactionWithSigner : SignerModel → Except String SignedTx × List SuiEvent
  | SignerModel.direct (some r) => (Except.ok r, [SuiEvent.signCall])
  | SignerModel.direct none =>
    (Except.error "failed_to_sign_transaction", [SuiEvent.signCall])
  | SignerModel.keypair (some r) => (Except.ok r, [SuiEvent.signCall])
  | SignerModel.keypair none =>
    (Except.error "failed_to_sign_transaction", [SuiEvent.signCall])
  | SignerModel.unsupported => (Except.error "failed_to_sign_transaction", [])

/-- Model of signAndSimulateTransaction: first simulate, and only on
simulation success sign with the signer, returning the simulation result
together with the signature and transaction bytes. -/
def signAndSimulateTransaction {α : Type} (dryRun : Option α)
    (signer : SignerModel) : Except String (α × SignedTx) × List SuiEvent :=
  let sim := simulateTransaction dryRun
  match sim.1 with
  | Except.error e => (Except.error e, sim.2)
  | Except.ok r =>
    let signed := signTransactionWithSigner signer
    match signed.1 with
    | Except.error e => (Except.error e, sim.2 ++ signed.2)
    | Except.ok s => (Except.ok (r, s), sim.2 ++ signed.2)

/-- C2: signAndSimulateTransaction always simulates before signing: when the
simulation fails the call returns the transaction_simulation_failed error,
the signer is never invoked and no signature is produced; and whenever the
signer is invoked, the simulation succeeded and came first in the trace. -/
theorem sign_and_simulate_order {α : Type} (dryRun : Option α)
    (signer : SignerModel) :
    (dryRun = none →
      (signAndSimulateTransaction dryRun signer).1 =
        Except.error "transaction_simulation_failed" ∧
      SuiEvent.signCall ∉ (signAndSimulateTransaction dryRun signer).2) ∧
    (SuiEvent.signCall ∈ (signAndSimulateTransaction dryRun signer).2 →
      ∃ r, dryRun = some r ∧
        (signAndSimulateTransaction dryRun signer).2.take 1 =
          [SuiEvent.simulateCall]) := by
  constructor
  · intro h
    subst h
    refine ⟨rfl, ?_⟩
    simp [signAndSimulateTransaction, simulateTransaction]
  · intro hmem
    cases dryRun with
    | none =>
      exfalso
      simp [signAndSimulateTransaction, simulateTransaction] at hmem
    | some r =>
      refine ⟨r, rfl, ?_⟩
      cases signer with
      | direct o => cases o <;> rfl
      | keypair o => cases o <;> rfl
      | unsupported => rfl

/-- Concrete witness for C2: a failing simulation with a signer that would
succeed produces the simulation error and never invokes the signer. -/
theorem sign_and_simulate_order_witness :
    (signAndSimulateTransaction (none : Option Nat)
        (SignerModel.direct (some ⟨"sig", "bytes"⟩))).1 =
      Except.error "transaction_simulation_failed" ∧
    SuiEvent.signCall ∉ (signAndSimulateTransaction (none : Option Nat)
        (SignerModel.direct (some ⟨"sig", "bytes"⟩))).2 :=
  (sign_and_simulate_order (none : Option Nat)
    (SignerModel.direct (some ⟨"sig", "bytes"⟩))).1 rfl

/-! ### getSenderFromTransaction (shared/sui/transaction.ts) -/

/-- Transaction data as read by getSenderFromTransaction: just the optional
sender field. -/
structure TransactionDataModel where
  sender : Option String

/-- Model of getSenderFromTransaction: transaction.getData() may itself
throw (the Except.error case); a falsy sender (absent, or the empty string)
raises inside the try block, and every raise is caught and mapped to the
empty string. -/
def getSenderFromTransaction (getData : Except Unit TransactionDataModel) :
    String :=
  match getData with
  | Except.error _ => ""
  | Except.ok d =>
    match d.sender with
    | none => ""
    | some s => if s = "" then "" else s

/-- C10: getSenderFromTransaction is total (a Lean function into String, so
it never throws): it returns the carried sender when the transaction data
has one, and the empty string when the sender field is missing or when
reading the data throws. -/
theorem get_sender_total (getData : Except Unit TransactionDataModel) :
    (∀ d s, getData = Except.ok d → d.sender = some s →
      getSenderFromTransaction getData = s) ∧
    (∀ d, getData = Except.ok d → d.sender = none →
      getSenderFromTransaction getData = "") ∧
    (∀ e, getData = Except.error e → getSenderFromTransaction getData = "") := by
  refine ⟨?_, ?_, ?_⟩
  · intro d s hd hs
    subst hd
    show (match d.sender with
      | none => ""
      | some s => if s = "" then "" else s) = s
    rw [hs]
    by_cases h : s = ""
    · subst h
      simp
    · simp [h]
  · intro d hd hs
    subst hd
    show (match d.sender with
      | none => ""
      | some s => if s = "" then "" else s) = ""
    rw [hs]
  · intro e hd
    subst hd
    rfl

/-- Concrete witness for C10: a transaction whose data carries a sender
yields that sender. -/
theorem get_sender_total_witness :
    getSenderFromTransaction (Except.ok ⟨some "0xabc"⟩) = "0xabc" :=
  (get_sender_total (Except.ok ⟨some "0xabc"⟩)).1 ⟨some "0xabc"⟩ "0xabc" rfl rfl

/-! ### Client payment construction (schemes/exact/sui/client.ts) -/

structure CoinModel where
  coinObjectId : String
  balance : Nat
deriving DecidableEq

inductive CoinSelectError
  | noCoinsFound
  | insufficientBalance
deriving DecidableEq

/-- Coin selection of createPaymentHeader for a non-native asset (the body
after getCoins returns): fail when the returned coin list is empty, else
take the first coin in list order whose balance is at least the required
amount, and fail when no single coin suffices (no coalescing of several
smaller coins). -/
def selectPaymentCoin (coins : List CoinModel) (amount : Nat) :
    Except CoinSelectError CoinModel :=
  if coins.length = 0 then Except.error CoinSelectError.noCoinsFound
  else
    match coins.find? (fun c => decide (amount ≤ c.balance)) with
    | some c => Except.ok c
    | none => Except.error CoinSelectError.insufficientBalance

def suiLongType : String :=
  "0x0000000000000000000000000000000000000000000000000000000000000002::sui::SUI"

/-- The isSui test of createPaymentHeader: the asset field is absent or
empty (both JS-falsy) or one of the two spellings of the native SUI coin
type. -/
def isSuiAsset : Option String → Bool
  | none => true
  | some a => a == "" || a == "0x2::sui::SUI" || a == suiLongType

inductive CoinSource
  | gasCoin
  | ownedObject (coinObjectId : String)
deriving DecidableEq

structure CoinSplitOutcome where
  source : Except CoinSelectError CoinSource
  holdingsQueried : Bool

/-- The coin-to-split choice of createPaymentHeader: for the native SUI
asset the transaction gas coin is split and the owner's holdings are not
queried; for any other asset the holdings of that coin type are fetched and
selectPaymentCoin picks the coin object to split. -/
def chooseCoinSource (asset : Option String) (amount : Nat)
    (holdings : List CoinModel) : CoinSplitOutcome :=
  if isSuiAsset asset then
    { source := Except.ok CoinSource.gasCoin, holdingsQueried := false }
  else
    match selectPaymentCoin holdings amount with
    | Except.ok c =>
      { source := Except.ok (CoinSource.ownedObject c.coinObjectId),
        holdingsQueried := true }
    | Except.error e => { source := Except.error e, holdingsQueried := true }

/-- find? returns the head of the first suffix whose head satisfies the
predicate; helper for the selection-order proof. -/
theorem find?_first_match (p : CoinModel → Bool) :
    ∀ (pre : List CoinModel), (∀ x ∈ pre, p x = false) →
    ∀ (c : CoinModel) (post : List CoinModel), p c = true →
    (pre ++ c :: post).find? p = some c := by
  intro pre
  induction pre with
  | nil =>
    intro _ c post hc
    simpa [List.find?_cons] using hc ▸ rfl
  | cons a t ih =>
    intro hpre c post hc
    have ha : p a = false := hpre a (by simp)
    have ht : ∀ x ∈ t, p x = false := fun x hx => hpre x (by simp [hx])
    simp [List.find?_cons, ha, ih ht c post hc]

/-- C5: for a non-native asset, createPaymentHeader fails with the
no-coins-found error on an empty coin list, selects the first holding in
list order whose balance reaches the required amount, and fails with the
insufficient-balance error when no single holding suffices. -/
theorem coin_selection_policy (asset : Option String) (amount : Nat)
    (holdings : List CoinModel) (hasset : isSuiAsset asset = false) :
    (holdings = [] →
      (chooseCoinSource asset amount holdings).source =
        Except.error CoinSelectError.noCoinsFound) ∧
    (∀ pre c post, holdings = pre ++ c :: post →
      (∀ x ∈ pre, x.balance < amount) → amount ≤ c.balance →
      (chooseCoinSource asset amount holdings).source =
        Except.ok (CoinSource.ownedObject c.coinObjectId)) ∧
    (holdings ≠ [] → (∀ x ∈ holdings, x.balance < amount) →
      (chooseCoinSource asset amount holdings).source =
        Except.error CoinSelectError.insufficientBalance) := by
  refine ⟨?_, ?_, ?_⟩
  · intro h
    subst h
    simp [chooseCoinSource, hasset, selectPaymentCoin]
  · intro pre c post hsplit hpre hc
    subst hsplit
    have hfind : (pre ++ c :: post).find?
        (fun x => decide (amount ≤ x.balance)) = some c := by
      refine find?_first_match _ pre ?_ c post (by simpa using hc)
      intro x hx
      simpa using Nat.not_le.mpr (hpre x hx)
    simp [chooseCoinSource, hasset, selectPaymentCoin, hfind]
  · intro hne hall
    have hfind : holdings.find?
        (fun x => decide (amount ≤ x.balance)) = none := by
      rw [List.find?_eq_none]
      intro x hx
      simpa using Nat.not_le.mpr (hall x hx)
    have hlen : ¬ holdings.length = 0 := by
      simpa [List.length_eq_zero] using hne
    simp [chooseCoinSource, hasset, selectPaymentCoin, hfind, hlen]

/-- Concrete witness for C5, at the inputs named by the spec: one holding of
balance 5000 against a requirement of 1000 is selected; an empty holding
list fails with no_coins_found; a single holding of 1000 against 10000
fails with insufficient_balance. -/
theorem coin_selection_policy_witness :
    (chooseCoinSource (some "0xabc::coin::COIN") 1000 [⟨"c1", 5000⟩]).source =
      Except.ok (CoinSource.ownedObject "c1") ∧
    (chooseCoinSource (some "0xabc::coin::COIN") 1000 []).source =
      Except.error CoinSelectError.noCoinsFound ∧
    (chooseCoinSource (some "0xabc::coin::COIN") 10000 [⟨"c1", 1000⟩]).source =
      Except.error CoinSelectError.insufficientBalance := by
  refine ⟨?_, ?_, ?_⟩
  · exact (coin_selection_policy (some "0xabc::coin::COIN") 1000 [⟨"c1", 5000⟩]
      (by decide)).2.1 [] ⟨"c1", 5000⟩ [] rfl (by simp) (by decide)
  · exact (coin_selection_policy (some "0xabc::coin::COIN") 1000 []
      (by decide)).1 rfl
  · exact (coin_selection_policy (some "0xabc::coin::COIN") 10000 [⟨"c1", 1000⟩]
      (by decide)).2.2 (by decide) (by decide)

/-- C9: the payment is funded from the gas coin, with the holdings never
queried, exactly when the asset is absent, empty, or one of the two
spellings of the native SUI type; every other asset queries the holdings of
that coin type. -/
theorem gas_coin_exactly_for_sui (asset : Option String) (amount : Nat)
    (holdings : List CoinModel) :
    (((chooseCoinSource asset amount holdings).holdingsQueried = false ∧
      (chooseCoinSource asset amount holdings).source =
        Except.ok CoinSource.gasCoin) ↔ isSuiAsset asset = true) ∧
    (isSuiAsset asset = true ↔
      (asset = none ∨ asset = some "" ∨ asset = some "0x2::sui::SUI" ∨
        asset = some suiLongType)) := by
  constructor
  · by_cases h : isSuiAsset asset
    · simp [chooseCoinSource, h]
    · simp only [Bool.not_eq_true] at h
      rw [h]
      simp only [chooseCoinSource, h, Bool.false_eq_true, if_false]
      cases hsel : selectPaymentCoin holdings amount <;> simp
  · cases asset with
    | none => simp [isSuiAsset]
    | some a =>
      simp [isSuiAsset, Bool.or_eq_true, beq_iff_eq, or_assoc]

/-- Concrete witness for C9: the short native SUI spelling splits from the
gas coin without querying holdings. -/
theorem gas_coin_exactly_for_sui_witness :
    (chooseCoinSource (some "0x2::sui::SUI") 5 [⟨"c", 1⟩]).holdingsQueried = false ∧
    (chooseCoinSource (some "0x2::sui::SUI") 5 [⟨"c", 1⟩]).source =
      Except.ok CoinSource.gasCoin :=
  (gas_coin_exactly_for_sui (some "0x2::sui::SUI") 5 [⟨"c", 1⟩]).1.mpr (by decide)

/-! ### RPC endpoint resolution (schemes/exact/sui/client.ts, shared/sui/rpc.ts) -/

/-- Default public RPC endpoint for Sui mainnet (shared/sui/rpc.ts). -/
def MAINNET_RPC_URL : String := "https://fullnode.mainnet.sui.io:443"

/-- Default public RPC endpoint for Sui testnet (shared/sui/rpc.ts). -/
def TESTNET_RPC_URL : String := "https://fullnode.testnet.sui.io:443"

/-- Modelled from the spec: getFullnodeUrl of the Sui SDK is not part of
this repository; per the spec it maps the mainnet and testnet environments
to the family-standard public fullnode endpoints, which are the defaults
recorded in shared/sui/rpc.ts. -/
def getFullnodeUrl (environment : String) : String :=
  if environment = "mainnet" then MAINNET_RPC_URL else TESTNET_RPC_URL

structure SuiConfig where
  rpcUrl : Option String

structure X402Config where
  suiConfig : Option X402.SuiConfig

/-- RPC endpoint resolution at the top of createPaymentHeader: the default
fullnode URL for mainnet when the network is "sui" and for testnet
otherwise, overridden by config.suiConfig.rpcUrl when that value is truthy
(present and non-empty; the source guards the override with JS
truthiness). -/
def resolveSuiRpcUrl (network : String) (config : Option X402Config) : String :=
  let defaultUrl := getFullnodeUrl (if network = "sui" then "mainnet" else "testnet")
  match config with
  | none => defaultUrl
  | some cfg =>
    match cfg.suiConfig with
    | none => defaultUrl
    | some sc =>
      match sc.rpcUrl with
      | none => defaultUrl
      | some u => if u = "" then defaultUrl else u

/-- Counterexample to C8 as stated: a config whose suiConfig.rpcUrl is set
to the empty string is not used; the default mainnet endpoint is used
instead, because the source tests the override with JS truthiness. -/
theorem rpc_override_empty_counterexample :
    resolveSuiRpcUrl "sui" (some ⟨some ⟨some ""⟩⟩) = MAINNET_RPC_URL ∧
    MAINNET_RPC_URL ≠ "" := by
  constructor
  · rfl
  · decide

/-- C8 (amended): with no config override, network "sui" resolves the
default mainnet fullnode endpoint and every other network (in particular
"sui-testnet") resolves the testnet default; a present and non-empty
config.suiConfig.rpcUrl is used regardless of network, while an
empty-string override is treated as unset. -/
theorem rpc_resolution (network : String) (config : Option X402Config) :
    resolveSuiRpcUrl "sui" none = MAINNET_RPC_URL ∧
    resolveSuiRpcUrl "sui-testnet" none = TESTNET_RPC_URL ∧
    (network ≠ "sui" → resolveSuiRpcUrl network none = TESTNET_RPC_URL) ∧
    (∀ u cfg sc, config = some cfg → cfg.suiConfig = some sc →
      sc.rpcUrl = some u → u ≠ "" → resolveSuiRpcUrl network config = u) := by
  refine ⟨rfl, rfl, ?_, ?_⟩
  · intro h
    simp [resolveSuiRpcUrl, getFullnodeUrl, h]
  · intro u cfg sc hcfg hsc hu hne
    subst hcfg
    simp [resolveSuiRpcUrl, hsc, hu, hne]

/-- Concrete witness for C8: an explicit non-empty override wins for both
networks. -/
theorem rpc_resolution_witness :
    resolveSuiRpcUrl "sui" (some ⟨some ⟨some "http://localhost:9000"⟩⟩) =
      "http://localhost:9000" :=
  (rpc_resolution "sui" (some ⟨some ⟨some "http://localhost:9000"⟩⟩)).2.2.2
    "http://localhost:9000" ⟨some ⟨some "http://localhost:9000"⟩⟩
    ⟨some "http://localhost:9000"⟩ rfl rfl rfl (by decide)

/-! ### Facilitator verify and settle routes (site/app/facilitator)

The two POST handlers are modelled as functions from the request and the
outcomes of the external effects (schema parses, the chain adapter's verify
and settle) to the HTTP response, together with a trace of the effects they
actually performed, in order. SupportedEVMNetworks and SupportedSVMNetworks
are defined outside the sampled sources and are taken as parameters; the
JS includes tests are membership tests. -/

/-- ALLOWED_NETWORKS from site/app/facilitator/config.ts. -/
def ALLOWED_NETWORKS : List String :=
  ["base-sepolia", "solana-devnet", "eip155:84532",
   "solana:EtWTRABZaYq6iMfeYKouRu166VU2xqa1"]

inductive FacEvent
  | parsePayloadCall
  | parseRequirementsCall
  | verifyChainCall
  | settleChainCall
deriving DecidableEq

structure RouteResponse (β : Type) where
  status : Nat
  body : β
deriving DecidableEq

/-- A schema-parsed payment payload as the routes use it: its network tag
and the authorization sender when the payload variant carries one (what the
rejections report as payer). -/
structure ParsedPayload where
  network : String
  authorizationFrom : Option String
deriving DecidableEq

/-- Shape of the verify route's JSON response body (error text omitted). -/
structure VerifyBody where
  isValid : Bool
  invalidReason : Option String
  payer : Option String
deriving DecidableEq

structure VerifyRouteRequest where
  network : String
  rawAuthorizationFrom : Option String
  payloadParse : Except String ParsedPayload
  requirementsParse : Except String Unit

structure VerifyRouteEnv where
  evmNetworks : List String
  svmNetworks : List String
  request : VerifyRouteRequest
  verifyOutcome : Except String VerifyBody

/-- Model of the verify route's POST handler: allow-list check on
body.paymentRequirements.network, chain-client selection by network family
(a network in neither family leaves the client undefined and is rejected as
invalid_network), schema validation of the payload then of the
requirements, and only then the chain adapter's verify, whose thrown errors
are caught and mapped to unexpected_verify_error. -/
def facilitatorVerifyPOST (env : VerifyRouteEnv) :
    RouteResponse VerifyBody × List FacEvent :=
  let network := env.request.network
  if network ∈ ALLOWED_NETWORKS then
    if network ∈ env.evmNetworks ∨ network ∈ env.svmNetworks then
      match env.request.payloadParse with
      | Except.error _ =>
        (⟨400, { isValid := false, invalidReason := some "invalid_payload",
                 payer := some (env.request.rawAuthorizationFrom.getD "") }⟩,
         [FacEvent.parsePayloadCall])
      | Except.ok pp =>
        match env.request.requirementsParse with
        | Except.error _ =>
          (⟨400, { isValid := false,
                   invalidReason := some "invalid_payment_requirements",
                   payer := some (pp.authorizationFrom.getD "") }⟩,
           [FacEvent.parsePayloadCall, FacEvent.parseRequirementsCall])
        | Except.ok _ =>
          match env.verifyOutcome with
          | Except.ok v =>
            (⟨200, v⟩,
             [FacEvent.parsePayloadCall, FacEvent.parseRequirementsCall,
              FacEvent.verifyChainCall])
          | Except.error _ =>
            (⟨500, { isValid := false,
                     invalidReason := some "unexpected_verify_error",
                     payer := some (pp.authorizationFrom.getD "") }⟩,
             [FacEvent.parsePayloadCall, FacEvent.parseRequirementsCall,
              FacEvent.verifyChainCall])
    else
      (⟨400, { isValid := false, invalidReason := some "invalid_network",
               payer := none }⟩, [])
  else
    (⟨400, { isValid := false, invalidReason := some "invalid_network",
             payer := none }⟩, [])

/-- Shape of the settle route's JSON response body; fields a branch omits
are none (the no-private-key rejection carries neither transaction nor
network). -/
structure SettleBody where
  success : Bool
  errorReason : Option String
  transaction : Option String
  network : Option String
deriving DecidableEq

structure SettleRouteRequest where
  network : String
  rawPayloadNetwork : Option String
  payloadParse : Except String ParsedPayload
  requirementsParse : Except String Unit

structure SettleRouteEnv where
  evmNetworks : List String
  svmNetworks : List String
  evmPrivateKey : Option String
  svmPrivateKey : Option String
  request : SettleRouteRequest
  settleOutcome : Except String SettleBody

/-- The settling private key the settle route selects: the EVM key for an
EVM-family network, the SVM key for an SVM-family network, none
otherwise. -/
def settleKey (env : SettleRouteEnv) : Option String :=
  if env.request.network ∈ env.evmNetworks then env.evmPrivateKey
  else if env.request.network ∈ env.svmNetworks then env.svmPrivateKey
  else none

/-- Model of the settle route's POST handler: allow-list check, settling
private-key selection by network family, schema validation of the payload
then of the requirements, and only then the chain adapter's settle, whose
thrown errors are caught and mapped to unexpected_settle_error with an
empty transaction. -/
def facilitatorSettlePOST (env : SettleRouteEnv) :
    RouteResponse SettleBody × List FacEvent :=
  let network := env.request.network
  if network ∈ ALLOWED_NETWORKS then
    match settleKey env with
    | none =>
      (⟨400, { success := false, errorReason := some "invalid_network",
               transaction := none, network := none }⟩, [])
    | some _ =>
      match env.request.payloadParse with
      | Except.error _ =>
        (⟨400, { success := false, errorReason := some "invalid_payload",
                 transaction := some "",
                 network := some (env.request.rawPayloadNetwork.getD "") }⟩,
         [FacEvent.parsePayloadCall])
      | Except.ok pp =>
        match env.request.requirementsParse with
        | Except.error _ =>
          (⟨400, { success := false,
                   errorReason := some "invalid_payment_requirements",
                   transaction := some "", network := some pp.network }⟩,
           [FacEvent.parsePayloadCall, FacEvent.parseRequirementsCall])
        | Except.ok _ =>
          match env.settleOutcome with
          | Except.ok r =>
            (⟨200, r⟩,
             [FacEvent.parsePayloadCall, FacEvent.parseRequirementsCall,
              FacEvent.settleChainCall])
          | Except.error _ =>
            (⟨500, { success := false,
                     errorReason := some "unexpected_settle_error",
                     transaction := some "", network := some pp.network }⟩,
             [FacEvent.parsePayloadCall, FacEvent.parseRequirementsCall,
              FacEvent.settleChainCall])
  else
    (⟨400, { success := false, errorReason := some "invalid_network",
             transaction := some "", network := some network }⟩, [])

/-- C6: both endpoints fail fast and locally. A network outside the
allow-list is rejected with invalid_network with an empty effect trace (so
before any schema parse or chain call); a payload or requirements schema
failure produces the corresponding typed rejection — carrying the payer
extracted from the payload where the response shape has a payer field —
with a trace containing only parse events, hence no chain call. -/
theorem validation_fails_fast (venv : VerifyRouteEnv) (senv : SettleRouteEnv) :
    (venv.request.network ∉ ALLOWED_NETWORKS →
      facilitatorVerifyPOST venv =
        (⟨400, ⟨false, some "invalid_network", none⟩⟩, [])) ∧
    (senv.request.network ∉ ALLOWED_NETWORKS →
      facilitatorSettlePOST senv =
        (⟨400, ⟨false, some "invalid_network", some "",
          some senv.request.network⟩⟩, [])) ∧
    (∀ e, venv.request.network ∈ ALLOWED_NETWORKS →
      (venv.request.network ∈ venv.evmNetworks ∨
        venv.request.network ∈ venv.svmNetworks) →
      venv.request.payloadParse = Except.error e →
      facilitatorVerifyPOST venv =
        (⟨400, ⟨false, some "invalid_payload",
          some (venv.request.rawAuthorizationFrom.getD "")⟩⟩,
         [FacEvent.parsePayloadCall])) ∧
    (∀ pp e, venv.request.network ∈ ALLOWED_NETWORKS →
      (venv.request.network ∈ venv.evmNetworks ∨
        venv.request.network ∈ venv.svmNetworks) →
      venv.request.payloadParse = Except.ok pp →
      venv.request.requirementsParse = Except.error e →
      facilitatorVerifyPOST venv =
        (⟨400, ⟨false, some "invalid_payment_requirements",
          some (pp.authorizationFrom.getD "")⟩⟩,
         [FacEvent.parsePayloadCall, FacEvent.parseRequirementsCall])) ∧
    (∀ e k, senv.request.network ∈ ALLOWED_NETWORKS →
      settleKey senv = some k →
      senv.request.payloadParse = Except.error e →
      facilitatorSettlePOST senv =
        (⟨400, ⟨false, some "invalid_payload", some "",
          some (senv.request.rawPayloadNetwork.getD "")⟩⟩,
         [FacEvent.parsePayloadCall])) ∧
    (∀ pp e k, senv.request.network ∈ ALLOWED_NETWORKS →
      settleKey senv = some k →
      senv.request.payloadParse = Except.ok pp →
      senv.request.requirementsParse = Except.error e →
      facilitatorSettlePOST senv =
        (⟨400, ⟨false, some "invalid_payment_requirements", some "",
          some pp.network⟩⟩,
         [FacEvent.parsePayloadCall, FacEvent.parseRequirementsCall])) := by
  refine ⟨?_, ?_, ?_, ?_, ?_, ?_⟩
  · intro h
    simp [facilitatorVerifyPOST, h]
  · intro h
    simp [facilitatorSettlePOST, h]
  · intro e h1 h2 hp
    simp [facilitatorVerifyPOST, h1, h2, hp]
  · intro pp e h1 h2 hp hr
    simp [facilitatorVerifyPOST, h1, h2, hp, hr]
  · intro e k h1 hk hp
    simp [facilitatorSettlePOST, h1, hk, hp]
  · intro pp e k h1 hk hp hr
    simp [facilitatorSettlePOST, h1, hk, hp, hr]

/-- Environment exercising the verify route with a failing payload parse. -/
def verifyEnvEx : VerifyRouteEnv :=
  { evmNetworks := ["base-sepolia"], svmNetworks := ["solana-devnet"],
    request :=
      { network := "base-sepolia", rawAuthorizationFrom := some "0xfrom",
        payloadParse := Except.error "bad payload",
        requirementsParse := Except.ok () },
    verifyOutcome := Except.ok ⟨true, none, none⟩ }

/-- Environment exercising the settle route with a throwing settle call. -/
def settleEnvEx : SettleRouteEnv :=
  { evmNetworks := ["base-sepolia"], svmNetworks := ["solana-devnet"],
    evmPrivateKey := some "0xkey", svmPrivateKey := none,
    request :=
      { network := "base-sepolia", rawPayloadNetwork := some "base-sepolia",
        payloadParse := Except.ok ⟨"base-sepolia", some "0xfrom"⟩,
        requirementsParse := Except.ok () },
    settleOutcome := Except.error "rpc exploded" }

/-- Concrete witness for C6: a payload-schema failure on an allowed EVM
network yields the invalid_payload rejection with the extractable payer and
performs no chain call. -/
theorem validation_fails_fast_witness :
    facilitatorVerifyPOST verifyEnvEx =
      (⟨400, ⟨false, some "invalid_payload", some "0xfrom"⟩⟩,
       [FacEvent.parsePayloadCall]) :=
  (validation_fails_fast verifyEnvEx settleEnvEx).2.2.1
    "bad payload" (by decide) (Or.inl (by decide)) rfl

/-- The settle route's trace is always one of four concrete prefixes, so it
contains the settle event at most once. -/
theorem settle_trace_cases (env : SettleRouteEnv) :
    (facilitatorSettlePOST env).2 = [] ∨
    (facilitatorSettlePOST env).2 = [FacEvent.parsePayloadCall] ∨
    (facilitatorSettlePOST env).2 =
      [FacEvent.parsePayloadCall, FacEvent.parseRequirementsCall] ∨
    (facilitatorSettlePOST env).2 =
      [FacEvent.parsePayloadCall, FacEvent.parseRequirementsCall,
       FacEvent.settleChainCall] := by
  unfold facilitatorSettlePOST
  repeat' split
  all_goals by_cases h : env.request.network ∈ ALLOWED_NETWORKS <;> simp [h]

/-- C7: chain-adapter failures never cross the route boundary. A throwing
verify is mapped to a 500 response with isValid false and
unexpected_verify_error; a throwing settle is mapped to a 500 response with
success false, unexpected_settle_error and an empty transaction; and the
settle route performs at most one settle attempt per call, exactly one when
the request passes validation. -/
theorem chain_errors_contained (venv : VerifyRouteEnv) (senv : SettleRouteEnv) :
    (∀ pp msg, venv.request.network ∈ ALLOWED_NETWORKS →
      (venv.request.network ∈ venv.evmNetworks ∨
        venv.request.network ∈ venv.svmNetworks) →
      venv.request.payloadParse = Except.ok pp →
      venv.request.requirementsParse = Except.ok () →
      venv.verifyOutcome = Except.error msg →
      (facilitatorVerifyPOST venv).1 =
        ⟨500, ⟨false, some "unexpected_verify_error",
          some (pp.authorizationFrom.getD "")⟩⟩) ∧
    (∀ pp msg k, senv.request.network ∈ ALLOWED_NETWORKS →
      settleKey senv = some k →
      senv.request.payloadParse = Except.ok pp →
      senv.request.requirementsParse = Except.ok () →
      senv.settleOutcome = Except.error msg →
      (facilitatorSettlePOST senv).1 =
        ⟨500, ⟨false, some "unexpected_settle_error", some "",
          some pp.network⟩⟩) ∧
    ((facilitatorSettlePOST senv).2.count FacEvent.settleChainCall ≤ 1) ∧
    (∀ pp k, senv.request.network ∈ ALLOWED_NETWORKS →
      settleKey senv = some k →
      senv.request.payloadParse = Except.ok pp →
      senv.request.requirementsParse = Except.ok () →
      (facilitatorSettlePOST senv).2.count FacEvent.settleChainCall = 1) := by
  refine ⟨?_, ?_, ?_, ?_⟩
  · intro pp msg h1 h2 hp hr hv
    simp [facilitatorVerifyPOST, h1, h2, hp, hr, hv]
  · intro pp msg k h1 hk hp hr hs
    simp [facilitatorSettlePOST, h1, hk, hp, hr, hs]
  · rcases settle_trace_cases senv with h | h | h | h <;> rw [h] <;> decide
  · intro pp k h1 hk hp hr
    have htr : (facilitatorSettlePOST senv).2 =
        [FacEvent.parsePayloadCall, FacEvent.parseRequirementsCall,
         FacEvent.settleChainCall] := by
      cases hs : senv.settleOutcome <;>
        simp [facilitatorSettlePOST, h1, hk, hp, hr, hs]
    rw [htr]
    decide

/-- Concrete witness for C7: the throwing settle call is mapped to the 500
unexpected_settle_error response with an empty transaction. -/
theorem chain_errors_contained_witness :
    (facilitatorSettlePOST settleEnvEx).1 =
      ⟨500, ⟨false, some "unexpected_settle_error", some "",
        some "base-sepolia"⟩⟩ :=
  (chain_errors_contained verifyEnvEx settleEnvEx).2.1
    ⟨"base-sepolia", some "0xfrom"⟩ "rpc exploded" "0xkey"
    (by decide) rfl rfl rfl rfl

/-! ### Next.js route protection (packages/x402-next/src/index.ts)

withX402 wraps an App Router route handler; paymentMiddleware returns a
Next.js middleware. Both check the X-PAYMENT header, verify it through the
facilitator, and settle after a success response. The handlers are modelled
over the outcomes of those steps. The settlePayment helper is defined
outside the sampled sources; modelled from the spec: it performs exactly
one settle call carrying the decoded payment and selected requirements it
is given, recorded here as the second component of the result. -/

structure NextResponseModel where
  status : Nat
deriving DecidableEq

/-- Outcome of verifyPayment: an error response returned directly, or the
decoded payment together with the selected requirements. -/
inductive PaymentVerification (P R : Type)
  | errorResponse (response : NextResponseModel)
  | verified (decodedPayment : P) (selectedRequirements : R)

/-- Model of the wrapped handler returned by withX402: on a missing
X-PAYMENT header the paywall response is returned; a failed verification
returns its error response; otherwise the wrapped route handler runs, and
settlement runs only when the handler's response status is below 400. -/
def withX402Handler {P R : Type} (paymentHeader : Option String)
    (paywallResponse : NextResponseModel)
    (verification : PaymentVerification P R)
    (handlerResponse : NextResponseModel)
    (settledResponse : NextResponseModel) :
    NextResponseModel × List (P × R) :=
  match paymentHeader with
  | none => (paywallResponse, [])
  | some _ =>
    match verification with
    | PaymentVerification.errorResponse e => (e, [])
    | PaymentVerification.verified dp sr =>
      if 400 ≤ handlerResponse.status then (handlerResponse, [])
      else (settledResponse, [(dp, sr)])

/-- Model of the middleware returned by paymentMiddleware for a matching
protected route: identical control flow to withX402Handler, except that the
response whose status the settle gate reads is the one returned by
NextResponse.next(). As the source's own note records, in Next.js
middleware that pass-through response does not expose the actual route
handler's response, so the handler's status is an input the middleware
never reads. -/
def paymentMiddlewareHandler {P R : Type} (paymentHeader : Option String)
    (paywallResponse : NextResponseModel)
    (verification : PaymentVerification P R)
    (nextResponse : NextResponseModel)
    (_handlerStatus : Nat)
    (settledResponse : NextResponseModel) :
    NextResponseModel × List (P × R) :=
  match paymentHeader with
  | none => (paywallResponse, [])
  | some _ =>
    match verification with
    | PaymentVerification.errorResponse e => (e, [])
    | PaymentVerification.verified dp sr =>
      if 400 ≤ nextResponse.status then (nextResponse, [])
      else (settledResponse, [(dp, sr)])

/-- Counterexample to C1 as stated: in paymentMiddleware the settle gate
reads the NextResponse.next() pass-through status, not the route handler's
status; with a verified payment, a handler status of 500 and a pass-through
status of 200, the middleware still makes a settle call. -/
theorem middleware_settles_despite_handler_error :
    400 ≤ 500 ∧
    (paymentMiddlewareHandler (some "header") ⟨402⟩
      (PaymentVerification.verified "payload" "requirements") ⟨200⟩ 500
      ⟨200⟩).2 = [("payload", "requirements")] := by
  constructor
  · decide
  · rfl

/-- C1 (amended): for withX402, after a successful verification a handler
status of at least 400 yields the handler response with no settle call, and
a status below 400 yields exactly one settle call carrying the verified
decoded payment and selected requirements. paymentMiddleware applies the
same gate to the status of the NextResponse.next() pass-through response,
independently of the route handler's own status. In both wrappers no settle
call happens without a successful verification. -/
theorem settle_gated_on_status {P R : Type} (paymentHeader : String)
    (paywallResponse : NextResponseModel) (dp : P) (sr : R)
    (handlerResponse nextResponse settledResponse : NextResponseModel)
    (handlerStatus : Nat) :
    (400 ≤ handlerResponse.status →
      withX402Handler (some paymentHeader) paywallResponse
        (PaymentVerification.verified dp sr) handlerResponse settledResponse =
        (handlerResponse, [])) ∧
    (handlerResponse.status < 400 →
      (withX402Handler (some paymentHeader) paywallResponse
        (PaymentVerification.verified dp sr) handlerResponse
        settledResponse).2 = [(dp, sr)]) ∧
    (400 ≤ nextResponse.status →
      (paymentMiddlewareHandler (some paymentHeader) paywallResponse
        (PaymentVerification.verified dp sr) nextResponse handlerStatus
        settledResponse).2 = []) ∧
    (nextResponse.status < 400 →
      (paymentMiddlewareHandler (some paymentHeader) paywallResponse
        (PaymentVerification.verified dp sr) nextResponse handlerStatus
        settledResponse).2 = [(dp, sr)]) ∧
    (∀ e, (withX402Handler (some paymentHeader) paywallResponse
        (PaymentVerification.errorResponse e : PaymentVerification P R)
        handlerResponse settledResponse).2 = []) ∧
    ((withX402Handler (none : Option String) paywallResponse
        (PaymentVerification.verified dp sr) handlerResponse
        settledResponse).2 = []) := by
  refine ⟨?_, ?_, ?_, ?_, ?_, ?_⟩
  · intro h
    simp [withX402Handler, h]
  · intro h
    simp [withX402Handler, Nat.not_le.mpr h]
  · intro h
    simp [paymentMiddlewareHandler, h]
  · intro h
    simp [paymentMiddlewareHandler, Nat.not_le.mpr h]
  · intro e
    rfl
  · rfl

/-- Concrete witness for C1 (amended): a handler error status of 500 under
withX402 returns the handler response and makes no settle call. -/
theorem settle_gated_on_status_witness :
    withX402Handler (some "header") ⟨402⟩
      (PaymentVerification.verified "payload" "requirements") ⟨500⟩ ⟨200⟩ =
      (⟨500⟩, ([] : List (String × String))) :=
  (settle_gated_on_status "header" ⟨402⟩ "payload" "requirements"
    ⟨500⟩ ⟨200⟩ ⟨200⟩ 200).1 (by decide)

end X402
